import Mathlib

/-!
Shallow embedding of the hallucinations-ios-api core pipeline:
provider adapters and fan-out dispatch (`src/app/ai_models.py`),
H-score calculation and team analysis (`src/app/analysis.py`),
and the truth verification engine (`src/app/truth_verification.py`).

Python strings are modelled as Lean `String`/`List Char`; Python floats
as exact rationals `ℚ` (including an explicit model of Python's
banker's rounding `round(x, n)`); network effects are parameterised by
outcome oracles so that every adapter stays a total function, exactly
as the source callbacks convert every exception into an in-band result.
-/

/-- Python `\s` whitespace class (ASCII part, which is all the code relies on). -/
def isPySpace (c : Char) : Bool :=
  c = ' ' || c = '\t' || c = '\n' || c = '\r' || c = '\x0b' || c = '\x0c'

/-- Python `str.isdigit`-style ASCII digit test, as used by the `\d` regex class. -/
def isPyDigit (c : Char) : Bool :=
  '0' ≤ c && c ≤ '9'

/-- Boolean prefix test on character lists (Python `str.startswith` / regex anchoring). -/
def listPrefixOf : List Char → List Char → Bool
  | [], _ => true
  | _ :: _, [] => false
  | a :: as, b :: bs => a = b && listPrefixOf as bs

/-- Boolean substring test on character lists (Python `needle in haystack`). -/
def listContains (n : List Char) : List Char → Bool
  | [] => n.isEmpty
  | c :: cs => listPrefixOf n (c :: cs) || listContains n cs

/-- Python `str.startswith`. -/
def strStartsWith (p s : String) : Bool :=
  listPrefixOf p.data s.data

/-- Python `needle in haystack` on strings. -/
def containsSub (needle hay : String) : Bool :=
  listContains needle.data hay.data

/-- Python `str.lower` (ASCII model). -/
def pyLower (s : String) : String :=
  ⟨s.data.map Char.toLower⟩

/-- Python `str.strip`: drop whitespace from both ends. -/
def pyStrip (s : String) : String :=
  ⟨((s.data.dropWhile isPySpace).reverse.dropWhile isPySpace).reverse⟩

/-- Numeric value of an ASCII digit character. -/
def digitVal (c : Char) : ℕ :=
  c.toNat - '0'.toNat

/-- Value of a decimal digit run (Python `float` on the integer part). -/
def natOfDigits (l : List Char) : ℕ :=
  l.foldl (fun a c => a * 10 + digitVal c) 0

/-- Value of `<intPart>.<fracPart>` as an exact rational (Python `float(matches[0])`). -/
def ratOfParts (ip fp : List Char) : ℚ :=
  (natOfDigits ip : ℚ) + (natOfDigits fp : ℚ) / (10 ^ fp.length)

/-- Python's `round` to an integer: round half to even (banker's rounding). -/
def roundHalfEven (x : ℚ) : ℤ :=
  if x - ⌊x⌋ < 1/2 then ⌊x⌋
  else if 1/2 < x - ⌊x⌋ then ⌊x⌋ + 1
  else if ⌊x⌋ % 2 = 0 then ⌊x⌋ else ⌊x⌋ + 1

/-- Python's `round(x, n)` on our exact-rational model of floats. -/
def pythonRound (x : ℚ) (n : ℕ) : ℚ :=
  (roundHalfEven (x * 10 ^ n) : ℚ) / 10 ^ n

/-!
## Score extraction (`analysis.py`, `extract_score_from_analysis`, lines 228-261)

The four regex patterns tried in order are
`{score_type}:\s*(\d+(?:\.\d+)?)/10`, `{score_type}:\s*(\d+(?:\.\d+)?)`,
`Score:\s*(\d+(?:\.\d+)?)/10`, `Score:\s*(\d+(?:\.\d+)?)`, all with
`re.IGNORECASE`; `re.findall`'s first (leftmost) match's capture group is
parsed as a float and clamped by `min(10.0, max(1.0, score))`.  The label
strings used by the code ("Risk Score", "Trust Score", "Confidence Score",
"Score") contain no regex metacharacters, so interpolating them literally
is exact.
-/

/-- Match `(\d+(?:\.\d+)?)` (and the literal `/10` when `slash` is set) at the
head of `s`, returning the captured integer and fraction digit runs — like
`re.findall`, the capture is a string; `float` conversion happens later.  The
digit runs are maximal, which coincides with the backtracking regex here
because only `/` may legally follow the capture in the `/10` variant and a
shortened maximal digit run is always followed by another digit. -/
def matchNumber (slash : Bool) (s : List Char) : Option (List Char × List Char) :=
  let d1 := s.takeWhile isPyDigit
  if d1.isEmpty then none
  else
    let rest1 := s.drop d1.length
    if slash then
      match rest1 with
      | '.' :: r2 =>
        let d2 := r2.takeWhile isPyDigit
        if !d2.isEmpty && listPrefixOf ['/', '1', '0'] (r2.drop d2.length) then
          some (d1, d2)
        else none
      | _ => if listPrefixOf ['/', '1', '0'] rest1 then some (d1, []) else none
    else
      match rest1 with
      | '.' :: r2 =>
        let d2 := r2.takeWhile isPyDigit
        if d2.isEmpty then some (d1, []) else some (d1, d2)
      | _ => some (d1, [])

/-- Case-insensitive literal-prefix stripping (the `re.IGNORECASE` label part). -/
def stripLabelCI : List Char → List Char → Option (List Char)
  | [], s => some s
  | _ :: _, [] => none
  | a :: as, b :: bs => if a.toLower = b.toLower then stripLabelCI as bs else none

/-- Try the whole pattern `<label>\s*(\d+(?:\.\d+)?)(/10)?` at one position. -/
def labelMatchAt (lbl : List Char) (slash : Bool) (s : List Char) :
    Option (List Char × List Char) :=
  match stripLabelCI lbl s with
  | none => none
  | some rest => matchNumber slash (rest.dropWhile isPySpace)

/-- Leftmost match of the pattern over the whole text (`re.findall`, first hit). -/
def scanForScore (lbl : List Char) (slash : Bool) :
    List Char → Option (List Char × List Char)
  | [] => none
  | c :: cs =>
    match labelMatchAt lbl slash (c :: cs) with
    | some v => some v
    | none => scanForScore lbl slash cs

/-- First capture group for pattern `{label}:\s*(\d+(?:\.\d+)?)(/10 if slash)`. -/
def firstMatch (t : String) (label : String) (slash : Bool) :
    Option (List Char × List Char) :=
  scanForScore (label ++ ":").data slash t.data

/-- `min(10.0, max(1.0, score))` from `analysis.py` line 246. -/
def clampScore (x : ℚ) : ℚ :=
  min 10 (max 1 x)

/-- Keyword fallback table of `extract_score_from_analysis` (lines 250-261),
checked in Python dict insertion order. -/
def keywordFallback (t : String) : ℚ :=
  let tl := pyLower t
  if containsSub "low" tl then 3
  else if containsSub "minimal" tl then 2
  else if containsSub "high" tl then 8
  else if containsSub "very high" tl then 9
  else if containsSub "excellent" tl then 9
  else if containsSub "good" tl then 7
  else if containsSub "moderate" tl then 5
  else if containsSub "poor" tl then 3
  else 5

/-- `extract_score_from_analysis(analysis_text, score_type)` (lines 228-261):
the first pattern with a match wins, its first capture is parsed as a float
and clamped; otherwise the keyword fallback applies. -/
def extract_score_from_analysis (analysisText : String) (scoreType : String) : ℚ :=
  if analysisText = "" then 5
  else
    match firstMatch analysisText scoreType true with
    | some m => clampScore (ratOfParts m.1 m.2)
    | none =>
      match firstMatch analysisText scoreType false with
      | some m => clampScore (ratOfParts m.1 m.2)
      | none =>
        match firstMatch analysisText "Score" true with
        | some m => clampScore (ratOfParts m.1 m.2)
        | none =>
          match firstMatch analysisText "Score" false with
          | some m => clampScore (ratOfParts m.1 m.2)
          | none => keywordFallback analysisText

/-- Holds when none of the four numeric regex patterns matches the text. -/
def noNumericMatch (t lbl : String) : Bool :=
  (firstMatch t lbl true).isNone && (firstMatch t lbl false).isNone &&
  (firstMatch t "Score" true).isNone && (firstMatch t "Score" false).isNone

/-!
## H-score (`analysis.py`, `calculate_h_score`, lines 264-324)
-/

/-- One `{"model": ..., "response": ...}` record produced by an adapter. -/
structure ProviderResult where
  model : String
  response : String
deriving Repr, DecidableEq

/-- The success filter of `calculate_h_score` (lines 297-300):
`not r['response'].startswith('[') or 'error' not in r['response'].lower()`. -/
def isSuccessful (r : ProviderResult) : Bool :=
  !strStartsWith "[" r.response || !containsSub "error" (pyLower r.response)

/-- `response_quality` (line 301): success ratio times 10, `5.0` on empty input. -/
def response_quality (responses : List ProviderResult) : ℚ :=
  if responses.isEmpty then 5
  else ((responses.filter isSuccessful).length : ℚ) / (responses.length : ℚ) * 10

/-- The dict returned by `calculate_h_score`. -/
structure HScore where
  final : ℚ
  safety : ℚ
  trust : ℚ
  confidence : ℚ
  quality : ℚ
deriving Repr, DecidableEq

/-- `calculate_h_score(responses, red_analysis, blue_analysis, purple_analysis)`
(lines 264-324): weights 0.25 each, `safety = 11 - risk`, Python `round`. -/
def calculate_h_score (responses : List ProviderResult)
    (redAnalysis blueAnalysis purpleAnalysis : String) : HScore :=
  let riskScore := extract_score_from_analysis redAnalysis "Risk Score"
  let trustScore := extract_score_from_analysis blueAnalysis "Trust Score"
  let confidenceScore := extract_score_from_analysis purpleAnalysis "Confidence Score"
  let safetyScore := 11 - riskScore
  let responseQuality := response_quality responses
  let finalScore :=
    safetyScore * (1/4) + trustScore * (1/4) + confidenceScore * (1/4) +
      responseQuality * (1/4)
  { final := pythonRound finalScore 2
    safety := pythonRound safetyScore 1
    trust := pythonRound trustScore 1
    confidence := pythonRound confidenceScore 1
    quality := pythonRound responseQuality 1 }

/-!
## Provider adapters and fan-out dispatch (`ai_models.py`)

Each adapter is parameterised by its credential (`Option String`, mirroring
the module-level `os.getenv` key / client handle) and by a network oracle
giving the outcome of the single outbound request for the transmitted
prompt.  `networkCalls` counts outbound requests, so "returns immediately
with no network call" is expressible.  The SDK-based adapters surface every
transport/parse failure as a raised exception, modelled by `NetOutcome.exn`;
the Perplexity adapter additionally branches on the HTTP status code and the
payload shape, modelled by `HttpOutcome`.
-/

/-- Outcome of one SDK call: a payload answer, or a raised exception. -/
inductive NetOutcome where
  | ok (answer : String)
  | exn (message : String)

/-- Outcome of the raw `requests.post` in `call_perplexity`: an HTTP response
with a status code and the first choice's content when the payload has a
non-empty `choices` list, or a raised exception. -/
inductive HttpOutcome where
  | resp (status : ℕ) (firstChoice : Option String)
  | exn (message : String)

/-- An adapter invocation: the returned record plus the outbound-request count. -/
structure AdapterCall where
  result : ProviderResult
  networkCalls : ℕ
deriving Repr, DecidableEq

/-- Web-context prepending shared by all adapters
(`f"{web_context}\n\nUSER QUERY: {prompt}"`). -/
def fullPromptOf (prompt : String) (webContext : Option String) : String :=
  match webContext with
  | some w => w ++ "\n\nUSER QUERY: " ++ prompt
  | none => prompt

/-- `call_openai` (`ai_models.py` lines 40-65). -/
def call_openai (prompt : String) (webContext : Option String)
    (key : Option String) (net : String → NetOutcome) : AdapterCall :=
  match key with
  | none => ⟨⟨"OpenAI", "[OpenAI unavailable: missing API key]"⟩, 0⟩
  | some _ =>
    match net (fullPromptOf prompt webContext) with
    | .ok answer => ⟨⟨"OpenAI", pyStrip answer⟩, 1⟩
    | .exn m => ⟨⟨"OpenAI", "[OpenAI error: " ++ m ++ "]"⟩, 1⟩

/-- `call_claude` (lines 68-89). -/
def call_claude (prompt : String) (webContext : Option String)
    (key : Option String) (net : String → NetOutcome) : AdapterCall :=
  match key with
  | none => ⟨⟨"Claude", "[Claude unavailable: missing API key]"⟩, 0⟩
  | some _ =>
    match net (fullPromptOf prompt webContext) with
    | .ok answer => ⟨⟨"Claude", pyStrip answer⟩, 1⟩
    | .exn m => ⟨⟨"Claude", "[Claude error: " ++ m ++ "]"⟩, 1⟩

/-- `call_gemini` (lines 92-109). -/
def call_gemini (prompt : String) (webContext : Option String)
    (key : Option String) (net : String → NetOutcome) : AdapterCall :=
  match key with
  | none => ⟨⟨"Gemini", "[Gemini unavailable: missing API key]"⟩, 0⟩
  | some _ =>
    match net (fullPromptOf prompt webContext) with
    | .ok answer => ⟨⟨"Gemini", pyStrip answer⟩, 1⟩
    | .exn m => ⟨⟨"Gemini", "[Gemini error: " ++ m ++ "]"⟩, 1⟩

/-- `call_cohere` (lines 112-135). -/
def call_cohere (prompt : String) (webContext : Option String)
    (key : Option String) (net : String → NetOutcome) : AdapterCall :=
  match key with
  | none => ⟨⟨"Cohere", "[Cohere unavailable: missing API key]"⟩, 0⟩
  | some _ =>
    match net (fullPromptOf prompt webContext) with
    | .ok answer => ⟨⟨"Cohere", pyStrip answer⟩, 1⟩
    | .exn m => ⟨⟨"Cohere", "[Cohere error: " ++ m ++ "]"⟩, 1⟩

/-- `call_deepseek` (lines 138-167). -/
def call_deepseek (prompt : String) (webContext : Option String)
    (key : Option String) (net : String → NetOutcome) : AdapterCall :=
  match key with
  | none => ⟨⟨"DeepSeek", "[DeepSeek unavailable: missing API key]"⟩, 0⟩
  | some _ =>
    match net (fullPromptOf prompt webContext) with
    | .ok answer => ⟨⟨"DeepSeek", pyStrip answer⟩, 1⟩
    | .exn m => ⟨⟨"DeepSeek", "[DeepSeek error: " ++ m ++ "]"⟩, 1⟩

/-- `call_openrouter` (lines 170-199). -/
def call_openrouter (prompt : String) (webContext : Option String)
    (key : Option String) (net : String → NetOutcome) : AdapterCall :=
  match key with
  | none => ⟨⟨"OpenRouter", "[OpenRouter unavailable: missing API key]"⟩, 0⟩
  | some _ =>
    match net (fullPromptOf prompt webContext) with
    | .ok answer => ⟨⟨"OpenRouter", pyStrip answer⟩, 1⟩
    | .exn m => ⟨⟨"OpenRouter", "[OpenRouter error: " ++ m ++ "]"⟩, 1⟩

/-- `call_perplexity` (lines 202-249): explicit status-code and payload-shape
branches before falling back to the exception handler. -/
def call_perplexity (prompt : String) (webContext : Option String)
    (key : Option String) (net : String → HttpOutcome) : AdapterCall :=
  match key with
  | none => ⟨⟨"Perplexity", "[Perplexity unavailable: missing API key]"⟩, 0⟩
  | some _ =>
    match net (fullPromptOf prompt webContext) with
    | .resp status firstChoice =>
      if status ≠ 200 then
        ⟨⟨"Perplexity", "[Perplexity error: HTTP " ++ toString status ++ "]"⟩, 1⟩
      else
        match firstChoice with
        | some content => ⟨⟨"Perplexity", pyStrip content⟩, 1⟩
        | none => ⟨⟨"Perplexity", "[Perplexity error: Unexpected response]"⟩, 1⟩
    | .exn m => ⟨⟨"Perplexity", "[Perplexity error: " ++ m ++ "]"⟩, 1⟩

/-- `call_grok` (lines 252-279). -/
def call_grok (prompt : String) (webContext : Option String)
    (key : Option String) (net : String → NetOutcome) : AdapterCall :=
  match key with
  | none => ⟨⟨"Grok", "[Grok unavailable: missing API key]"⟩, 0⟩
  | some _ =>
    match net (fullPromptOf prompt webContext) with
    | .ok answer => ⟨⟨"Grok", pyStrip answer⟩, 1⟩
    | .exn m => ⟨⟨"Grok", "[Grok error: " ++ m ++ "]"⟩, 1⟩

/-- The per-process environment: one credential and one network oracle per
provider, mirroring the module-level key/client globals of `ai_models.py`. -/
structure Env where
  openaiKey : Option String
  anthropicKey : Option String
  googleKey : Option String
  cohereKey : Option String
  deepseekKey : Option String
  openrouterKey : Option String
  perplexityKey : Option String
  grokKey : Option String
  openaiNet : String → NetOutcome
  claudeNet : String → NetOutcome
  geminiNet : String → NetOutcome
  cohereNet : String → NetOutcome
  deepseekNet : String → NetOutcome
  openrouterNet : String → NetOutcome
  perplexityNet : String → HttpOutcome
  grokNet : String → NetOutcome

/-- `query_all_models` (lines 284-330): submits all eight adapters and collects
every future's result.  Since each adapter is a total function (exceptions are
converted in-band inside the adapter), the `except` guard around
`future.result()` never fires and all eight slots are collected; the
`as_completed` collection order is abstracted to the submission order, which
is irrelevant to cardinality and multiset content. -/
def query_all_models (prompt : String) (webContext : Option String)
    (env : Env) : List ProviderResult :=
  [(call_openai prompt webContext env.openaiKey env.openaiNet).result,
   (call_claude prompt webContext env.anthropicKey env.claudeNet).result,
   (call_gemini prompt webContext env.googleKey env.geminiNet).result,
   (call_cohere prompt webContext env.cohereKey env.cohereNet).result,
   (call_deepseek prompt webContext env.deepseekKey env.deepseekNet).result,
   (call_openrouter prompt webContext env.openrouterKey env.openrouterNet).result,
   (call_perplexity prompt webContext env.perplexityKey env.perplexityNet).result,
   (call_grok prompt webContext env.grokKey env.grokNet).result]

/-!
## Team analysis (`analysis.py`, `run_team_analysis`, lines 174-223)

The red/blue analysis texts are oracled (they are network calls returning a
string; even their failure paths return non-empty diagnostic strings), and the
purple analysis is an oracle of the two prior texts.  The gate on line 216 is
Python truthiness: `if enable_purple and red_analysis and blue_analysis`.
-/

/-- The dict returned by `run_team_analysis`. -/
structure TeamAnalysis where
  red_team : Option String
  blue_team : Option String
  purple_team : Option String
deriving Repr, DecidableEq

/-- Python truthiness of an optional string: `None` and `""` are falsy. -/
def pyTruthy : Option String → Bool
  | none => false
  | some s => !(s = "")

/-- `run_team_analysis` (lines 174-223). -/
def run_team_analysis (redText blueText : String)
    (purpleOf : String → String → String)
    (enableRed enableBlue enablePurple : Bool) : TeamAnalysis :=
  let redAnalysis := if enableRed then some redText else none
  let blueAnalysis := if enableBlue then some blueText else none
  let purpleAnalysis :=
    if enablePurple && pyTruthy redAnalysis && pyTruthy blueAnalysis then
      some (purpleOf (redAnalysis.getD "") (blueAnalysis.getD ""))
    else none
  ⟨redAnalysis, blueAnalysis, purpleAnalysis⟩

/-!
## Truth verification (`truth_verification.py`)
-/

/-- Python `\w` word-character test (ASCII model), for the `\b` boundaries. -/
def isWordChar (c : Char) : Bool :=
  c.isAlpha || isPyDigit c || c = '_'

/-- A `\b` boundary holds before the match when the preceding character (if
any) is a non-word character. -/
def leftBoundary : Option Char → Bool
  | none => true
  | some c => !isWordChar c

/-- All matches of `re.findall(r'\b(20\d{2})\b', response)`, scanned left to
right without overlap, carrying the previous character for the left `\b`. -/
def yearsAux : Option Char → List Char → List ℤ
  | prev, c :: c2 :: c3 :: c4 :: rest =>
    if leftBoundary prev && c = '2' && c2 = '0' && isPyDigit c3 && isPyDigit c4 &&
        (match rest with | [] => true | r :: _ => !isWordChar r) then
      ((2000 + 10 * digitVal c3 + digitVal c4 : ℕ) : ℤ) :: yearsAux (some c4) rest
    else
      yearsAux (some c) (c2 :: c3 :: c4 :: rest)
  | _, _ => []

/-- Years `2000..2099` mentioned in a string (`truth_verification.py` line 162). -/
def yearsMentioned (s : String) : List ℤ :=
  yearsAux none s.data

/-- One iteration of the `_check_temporal_accuracy` loop (lines 160-170):
a response mentioning any year overwrites the running score with 0.9 when the
response has a year `≥ current_year - 2`, else 0.7 when some year is
`≥ current_year - 5`, else 0.4; a response without years leaves it unchanged. -/
def temporalStep (currentYear : ℤ) (temporalScore : ℚ)
    (mr : String × String) : ℚ :=
  let yearsFound := yearsMentioned mr.2
  if !yearsFound.isEmpty then
    let recentYears := yearsFound.filter (fun y => currentYear - 2 ≤ y)
    if !recentYears.isEmpty then 9/10
    else if yearsFound.any (fun y => currentYear - 5 ≤ y) then 7/10
    else 2/5
  else temporalScore

/-- `_check_temporal_accuracy` (lines 154-172): the running score starts at
0.7 and is overwritten by each response that mentions any year, so the last
such response decides the result.  The wall clock read `datetime.now().year`
is a parameter. -/
def checkTemporalAccuracy (currentYear : ℤ)
    (aiResponses : List (String × String)) : ℚ :=
  aiResponses.foldl (temporalStep currentYear) (7/10)

/-- Outcome of the Google Custom Search request in
`_cross_reference_information`: an HTTP response with a status code and the
number of `items` in the payload, or a raised exception. -/
inductive SearchOutcome where
  | httpResp (status : ℕ) (items : ℕ)
  | exn

/-- `_cross_reference_information` (lines 122-152): 0.5 without credentials or
on exception, `min(items/5, 1.0)` on a 200 response with a non-empty `items`
list, 0.3 otherwise. -/
def crossReferenceInformation (hasCreds : Bool) (o : SearchOutcome) : ℚ :=
  if !hasCreds then 1/2
  else
    match o with
    | .httpResp status items =>
      if status = 200 && items ≠ 0 then min ((items : ℚ) / 5) 1 else 3/10
    | .exn => 1/2

/-- Outcome of one `requests.head` link check in `_verify_sources`: a response
whose status is below 400 together with the domain-reliability classification,
a response with status ≥ 400, or a raised exception. -/
inductive UrlCheck where
  | ok (reliable : Bool)
  | badStatus
  | exn

/-- The counters accumulated by `_verify_sources`. -/
structure SourceStats where
  urlsFound : ℕ
  urlsVerified : ℕ
  reliableSources : ℕ
  brokenLinks : ℕ
deriving Repr, DecidableEq

/-- The `https://` prefixing of bare URLs (`_verify_sources` lines 190-191). -/
def normalizeUrl (url : String) : String :=
  if strStartsWith "http" url then url else "https://" ++ url

/-- Processing of one extracted URL inside `_verify_sources` (lines 189-221). -/
def verifyOneUrl (check : String → UrlCheck) (st : SourceStats)
    (url : String) : SourceStats :=
  let st := { st with urlsFound := st.urlsFound + 1 }
  match check (normalizeUrl url) with
  | .ok reliable =>
    { st with
      urlsVerified := st.urlsVerified + 1
      reliableSources := st.reliableSources + (if reliable then 1 else 0) }
  | .badStatus => { st with brokenLinks := st.brokenLinks + 1 }
  | .exn => { st with brokenLinks := st.brokenLinks + 1 }

/-- `_verify_sources` (lines 174-223).  The URL-extraction regex and the
per-URL head request / domain classification are oracled (`urlsOf`, `check`);
the cap of three URLs per response and the counter discipline are from the
source. -/
def verifySources (urlsOf : String → List String) (check : String → UrlCheck)
    (aiResponses : List (String × String)) : SourceStats :=
  aiResponses.foldl
    (fun stats mr => ((urlsOf mr.2).take 3).foldl (verifyOneUrl check) stats)
    ⟨0, 0, 0, 0⟩

/-- `_calculate_truth_score` (lines 225-250): fixed weights 0.4/0.3/0.2/0.1,
source score `0.6×verifiedRatio + 0.4×reliableRatio` when any URL was found
(default 0.7 otherwise), consistency placeholder 0.7, Python `round(x, 2)`. -/
def calculateTruthScore (crossRef temporal : ℚ) (stats : SourceStats) : ℚ :=
  let sourceScore : ℚ :=
    if stats.urlsFound > 0 then
      ((stats.urlsVerified : ℚ) / (stats.urlsFound : ℚ)) * (6/10) +
        ((stats.reliableSources : ℚ) / (stats.urlsFound : ℚ)) * (4/10)
    else 7/10
  pythonRound
    (crossRef * (4/10) + temporal * (3/10) + sourceScore * (2/10) + (7/10) * (1/10)) 2

/-- The `overall_truth_score` produced by the success path of
`verify_response_accuracy` (lines 27-86): the composition of steps 2-5.
(The enclosing `except` path leaves the initial value 0.0, also in [0,1].) -/
def overallTruthScore (hasCreds : Bool) (searchOutcome : SearchOutcome)
    (urlsOf : String → List String) (check : String → UrlCheck)
    (currentYear : ℤ) (aiResponses : List (String × String)) : ℚ :=
  calculateTruthScore
    (crossReferenceInformation hasCreds searchOutcome)
    (checkTemporalAccuracy currentYear aiResponses)
    (verifySources urlsOf check aiResponses)

/-!
## Helper lemmas
-/

/-- The empty needle is a substring of everything. -/
theorem listContains_nil (c : List Char) : listContains [] c = true := by
  induction c with
  | nil => rfl
  | cons z c' ih => simp [listContains, listPrefixOf]

/-- Transitivity of the boolean prefix test. -/
theorem listPrefixOf_trans {a b c : List Char} (hab : listPrefixOf a b = true)
    (hbc : listPrefixOf b c = true) : listPrefixOf a c = true := by
  induction a generalizing b c with
  | nil => rfl
  | cons x a' ih =>
    cases b with
    | nil => simp [listPrefixOf] at hab
    | cons y b' =>
      cases c with
      | nil => simp [listPrefixOf] at hbc
      | cons z c' =>
        simp [listPrefixOf] at hab hbc ⊢
        exact ⟨hab.1.trans hbc.1, ih hab.2 hbc.2⟩

/-- A substring of a prefix is a substring of the whole. -/
theorem listContains_of_prefix {a b c : List Char} (hbc : listPrefixOf b c = true)
    (hab : listContains a b = true) : listContains a c = true := by
  induction b generalizing a c with
  | nil =>
    simp [listContains, List.isEmpty_iff] at hab
    subst hab
    exact listContains_nil c
  | cons y b' ih =>
    cases c with
    | nil => simp [listPrefixOf] at hbc
    | cons z c' =>
      simp [listPrefixOf] at hbc
      simp [listContains] at hab ⊢
      rcases hab with hpre | htail
      · exact Or.inl (listPrefixOf_trans hpre (by simp [listPrefixOf, hbc.1, hbc.2]))
      · exact Or.inr (ih hbc.2 htail)

/-- Transitivity of the boolean substring test. -/
theorem listContains_trans {a b c : List Char} (hab : listContains a b = true)
    (hbc : listContains b c = true) : listContains a c = true := by
  induction c with
  | nil =>
    simp [listContains, List.isEmpty_iff] at hbc
    subst hbc
    simpa [listContains] using hab
  | cons z c' ih =>
    simp [listContains] at hbc ⊢
    rcases hbc with hpre | htail
    · rcases (by simpa [listContains] using listContains_of_prefix hpre hab :
        listPrefixOf a (z :: c') = true ∨ listContains a c' = true) with h | h
      · exact Or.inl h
      · exact Or.inr h
    · exact Or.inr (ih htail)

/-- Transitivity of Python's `in` on strings. -/
theorem containsSub_trans {a b c : String} (hab : containsSub a b = true)
    (hbc : containsSub b c = true) : containsSub a c = true :=
  listContains_trans hab hbc

/-- The clamp `min(10, max(1, x))` lands in [1, 10]. -/
theorem clampScore_mem (x : ℚ) : 1 ≤ clampScore x ∧ clampScore x ≤ 10 :=
  ⟨le_min (by norm_num) (le_max_left 1 x), min_le_left 10 (max 1 x)⟩

/-- Every keyword-fallback value lands in [1, 10]. -/
theorem keywordFallback_mem (t : String) :
    1 ≤ keywordFallback t ∧ keywordFallback t ≤ 10 := by
  unfold keywordFallback
  dsimp only
  refine ⟨?_, ?_⟩ <;> split_ifs <;> norm_num

/-- The branch shape of `extract_score_from_analysis`: a pattern match either
clamps its parsed capture or falls through to the next stage. -/
theorem clamp_or_fallthrough (o : Option (List Char × List Char)) (k : ℚ)
    (hk : 1 ≤ k ∧ k ≤ 10) :
    1 ≤ (match o with | some m => clampScore (ratOfParts m.1 m.2) | none => k) ∧
      (match o with | some m => clampScore (ratOfParts m.1 m.2) | none => k) ≤ 10 := by
  cases o with
  | some m => exact clampScore_mem _
  | none => exact hk

/-- `extract_score_from_analysis` always returns a value in [1, 10]. -/
theorem extract_score_mem (t l : String) :
    1 ≤ extract_score_from_analysis t l ∧ extract_score_from_analysis t l ≤ 10 := by
  unfold extract_score_from_analysis
  split
  · constructor <;> norm_num
  exact clamp_or_fallthrough _ _
    (clamp_or_fallthrough _ _
      (clamp_or_fallthrough _ _
        (clamp_or_fallthrough _ _ (keywordFallback_mem t))))

/-- `response_quality` always returns a value in [0, 10]. -/
theorem response_quality_mem (rs : List ProviderResult) :
    0 ≤ response_quality rs ∧ response_quality rs ≤ 10 := by
  unfold response_quality
  split
  · constructor <;> norm_num
  · rename_i h
    have hn : 0 < rs.length := by
      cases rs with
      | nil => simp at h
      | cons a t => simp
    have hnq : (0:ℚ) < (rs.length : ℚ) := by exact_mod_cast hn
    constructor
    · positivity
    · have hle : (rs.filter isSuccessful).length ≤ rs.length :=
        List.length_filter_le _ _
      have h1 : ((rs.filter isSuccessful).length : ℚ) / (rs.length : ℚ) ≤ 1 := by
        rw [div_le_one hnq]
        exact_mod_cast hle
      nlinarith

/-- Banker's rounding never drops below an integer lower bound. -/
theorem le_roundHalfEven {n : ℤ} {x : ℚ} (h : (n : ℚ) ≤ x) :
    n ≤ roundHalfEven x := by
  have hf : n ≤ ⌊x⌋ := Int.le_floor.mpr h
  unfold roundHalfEven
  split
  · exact hf
  split
  · omega
  split
  · exact hf
  · omega

/-- Banker's rounding never exceeds an integer upper bound. -/
theorem roundHalfEven_le {n : ℤ} {x : ℚ} (h : x ≤ (n : ℚ)) :
    roundHalfEven x ≤ n := by
  have hf : ⌊x⌋ ≤ n := by
    have h2 := Int.floor_le_floor h
    simpa using h2
  have hstrict : (1:ℚ)/2 ≤ x - ⌊x⌋ → ⌊x⌋ + 1 ≤ n := by
    intro hr
    have h1 : (⌊x⌋ : ℚ) < x := by
      have := Int.floor_le x
      linarith
    have h2 : (⌊x⌋ : ℚ) < (n : ℚ) := lt_of_lt_of_le h1 h
    have h3 : ⌊x⌋ < n := by exact_mod_cast h2
    omega
  unfold roundHalfEven
  split
  · exact hf
  rename_i hcond
  push_neg at hcond
  split
  · exact hstrict hcond
  split
  · exact hf
  · exact hstrict hcond

/-- `pythonRound` preserves lower bounds that are multiples of `10^(-n)`. -/
theorem le_pythonRound {lo : ℤ} {x : ℚ} {n : ℕ} (h : (lo : ℚ) / 10 ^ n ≤ x) :
    (lo : ℚ) / 10 ^ n ≤ pythonRound x n := by
  have hp : (0:ℚ) < 10 ^ n := by positivity
  have h1 : (lo : ℚ) ≤ x * 10 ^ n := by
    rw [div_le_iff₀ hp] at h
    exact h
  have h2 : lo ≤ roundHalfEven (x * 10 ^ n) := le_roundHalfEven h1
  have h3 : (lo : ℚ) ≤ (roundHalfEven (x * 10 ^ n) : ℚ) := by exact_mod_cast h2
  unfold pythonRound
  gcongr

/-- `pythonRound` preserves upper bounds that are multiples of `10^(-n)`. -/
theorem pythonRound_le {hi : ℤ} {x : ℚ} {n : ℕ} (h : x ≤ (hi : ℚ) / 10 ^ n) :
    pythonRound x n ≤ (hi : ℚ) / 10 ^ n := by
  have hp : (0:ℚ) < 10 ^ n := by positivity
  have h1 : x * 10 ^ n ≤ (hi : ℚ) := by
    rw [le_div_iff₀ hp] at h
    exact h
  have h2 : roundHalfEven (x * 10 ^ n) ≤ hi := roundHalfEven_le h1
  have h3 : (roundHalfEven (x * 10 ^ n) : ℚ) ≤ (hi : ℚ) := by exact_mod_cast h2
  unfold pythonRound
  gcongr

/-!
## Claims about the H-score (C1, C4, C5, C9, C10 share these definitions)
-/

/-- C5: `extract_score_from_analysis` is total (it is a Lean function on all
of `String × String`, covering the empty text) and its output always lies in
[1.0, 10.0]: matched numbers are clamped, keyword fallbacks and the default
5.0 are already in range. -/
theorem extract_is_total_and_in_range (t l : String) :
    1 ≤ extract_score_from_analysis t l ∧ extract_score_from_analysis t l ≤ 10 :=
  extract_score_mem t l

/-- Evaluation rule: when the first pattern matches, the extracted score is
the clamped parse of its capture. -/
theorem extract_eval_of_firstMatch {t l : String} {d1 d2 : List Char}
    (h0 : t ≠ "") (h : firstMatch t l true = some (d1, d2)) :
    extract_score_from_analysis t l = clampScore (ratOfParts d1 d2) := by
  unfold extract_score_from_analysis
  rw [if_neg h0, h]

/-- Evaluation rule for `response_quality` on a non-empty list with known
success count and length. -/
theorem response_quality_eval (rs : List ProviderResult) (k n : ℕ)
    (hne : rs.isEmpty = false)
    (hf : (rs.filter isSuccessful).length = k) (hn : rs.length = n) :
    response_quality rs = (k : ℚ) / (n : ℚ) * 10 := by
  unfold response_quality
  rw [if_neg (by simp [hne]), hf, hn]

/-- C1 counterexample: with one pure-error provider result (quality 0) and
the three extracted ratings at their extremes (risk 10 hence safety 1, trust
1, confidence 1), `calculate_h_score` returns `final = 0.75`, which is below
the claimed lower bound 1.0. -/
theorem final_score_below_one_example :
    (calculate_h_score [⟨"A", "[error]"⟩] "Risk Score: 10/10" "Trust Score: 1/10"
        "Confidence Score: 1/10").final = 3/4 ∧
      ¬(1 ≤ (calculate_h_score [⟨"A", "[error]"⟩] "Risk Score: 10/10"
        "Trust Score: 1/10" "Confidence Score: 1/10").final) := by
  have hrisk : extract_score_from_analysis "Risk Score: 10/10" "Risk Score" = 10 := by
    rw [extract_eval_of_firstMatch (by decide) (by decide :
      firstMatch "Risk Score: 10/10" "Risk Score" true = some (['1', '0'], []))]
    unfold clampScore ratOfParts
    rw [(by decide : natOfDigits ['1', '0'] = 10), (by decide : natOfDigits [] = 0)]
    norm_num
  have htrust : extract_score_from_analysis "Trust Score: 1/10" "Trust Score" = 1 := by
    rw [extract_eval_of_firstMatch (by decide) (by decide :
      firstMatch "Trust Score: 1/10" "Trust Score" true = some (['1'], []))]
    unfold clampScore ratOfParts
    rw [(by decide : natOfDigits ['1'] = 1), (by decide : natOfDigits [] = 0)]
    norm_num
  have hconf : extract_score_from_analysis "Confidence Score: 1/10" "Confidence Score" = 1 := by
    rw [extract_eval_of_firstMatch (by decide) (by decide :
      firstMatch "Confidence Score: 1/10" "Confidence Score" true = some (['1'], []))]
    unfold clampScore ratOfParts
    rw [(by decide : natOfDigits ['1'] = 1), (by decide : natOfDigits [] = 0)]
    norm_num
  have hq : response_quality [⟨"A", "[error]"⟩] = 0 := by
    rw [response_quality_eval [⟨"A", "[error]"⟩] 0 1 (by decide) (by decide) (by decide)]
    norm_num
  have hval : (calculate_h_score [⟨"A", "[error]"⟩] "Risk Score: 10/10" "Trust Score: 1/10"
      "Confidence Score: 1/10").final = 3/4 := by
    unfold calculate_h_score
    dsimp only
    rw [hrisk, htrust, hconf, hq]
    have : ((11:ℚ) - 10) * (1/4) + 1 * (1/4) + 1 * (1/4) + 0 * (1/4) = 3/4 := by norm_num
    rw [this]
    unfold pythonRound roundHalfEven
    norm_num
  exact ⟨hval, by rw [hval]; norm_num⟩

/-- C1 amended: for every list of provider results and every triple of
analysis texts, `final` lies within [0.75, 10.0] (the quality component is
only clamped to [0, 10], so the lower bound 1.0 of the claim weakens to
0.75 = 0.25·(1+1+1+0)). -/
theorem final_score_range (responses : List ProviderResult)
    (redAnalysis blueAnalysis purpleAnalysis : String) :
    3/4 ≤ (calculate_h_score responses redAnalysis blueAnalysis purpleAnalysis).final ∧
      (calculate_h_score responses redAnalysis blueAnalysis purpleAnalysis).final ≤ 10 := by
  obtain ⟨hr1, hr2⟩ := extract_score_mem redAnalysis "Risk Score"
  obtain ⟨ht1, ht2⟩ := extract_score_mem blueAnalysis "Trust Score"
  obtain ⟨hc1, hc2⟩ := extract_score_mem purpleAnalysis "Confidence Score"
  obtain ⟨hq1, hq2⟩ := response_quality_mem responses
  unfold calculate_h_score
  dsimp only
  constructor
  · have hlow : ((75 : ℤ) : ℚ) / 10 ^ 2 ≤
        (11 - extract_score_from_analysis redAnalysis "Risk Score") * (1/4) +
          extract_score_from_analysis blueAnalysis "Trust Score" * (1/4) +
          extract_score_from_analysis purpleAnalysis "Confidence Score" * (1/4) +
          response_quality responses * (1/4) := by
      push_cast
      nlinarith
    have := le_pythonRound hlow
    calc (3:ℚ)/4 = ((75 : ℤ) : ℚ) / 10 ^ 2 := by norm_num
    _ ≤ _ := this
  · have hhi : (11 - extract_score_from_analysis redAnalysis "Risk Score") * (1/4) +
          extract_score_from_analysis blueAnalysis "Trust Score" * (1/4) +
          extract_score_from_analysis purpleAnalysis "Confidence Score" * (1/4) +
          response_quality responses * (1/4) ≤ ((1000 : ℤ) : ℚ) / 10 ^ 2 := by
      push_cast
      nlinarith
    have := pythonRound_le hhi
    calc pythonRound _ 2 ≤ ((1000 : ℤ) : ℚ) / 10 ^ 2 := this
    _ = 10 := by norm_num

/-- Three provider results that are all error markers. -/
def threeErrorResults : List ProviderResult :=
  [⟨"A", "[A error: boom]"⟩, ⟨"B", "[B error: boom]"⟩, ⟨"C", "[C error: boom]"⟩]

/-- Three provider results that are all ordinary answers. -/
def threeGoodResults : List ProviderResult :=
  [⟨"A", "Paris is the capital."⟩, ⟨"B", "It is Paris."⟩, ⟨"C", "Paris."⟩]

/-- C4: for non-empty result lists the quality component is the ratio of
results that do NOT both start with "[" and contain "error" (on the
lowercased text), times 10; the empty list yields 5.0; all-error out of 3
yields 0.0 and all-good out of 3 yields 10.0. -/
theorem quality_formula (rs : List ProviderResult) :
    (rs ≠ [] →
      response_quality rs =
        ((rs.filter (fun r => !(strStartsWith "[" r.response &&
            containsSub "error" (pyLower r.response)))).length : ℚ) /
          (rs.length : ℚ) * 10) ∧
    response_quality [] = 5 ∧
    response_quality threeErrorResults = 0 ∧
    response_quality threeGoodResults = 10 := by
  refine ⟨?_, by norm_num [response_quality],
    by rw [response_quality_eval threeErrorResults 0 3 (by decide) (by decide)
        (by decide)]; norm_num,
    by rw [response_quality_eval threeGoodResults 3 3 (by decide) (by decide)
        (by decide)]; norm_num⟩
  intro h
  unfold response_quality
  rw [if_neg (by simpa [List.isEmpty_iff] using h)]
  have hfilter : rs.filter isSuccessful =
      rs.filter (fun r => !(strStartsWith "[" r.response &&
        containsSub "error" (pyLower r.response))) := by
    apply List.filter_congr
    intro r _
    unfold isSuccessful
    cases strStartsWith "[" r.response <;>
      cases containsSub "error" (pyLower r.response) <;> rfl
  rw [hfilter]

/-- C4 witness: the quality formula instantiated at the all-good list. -/
theorem quality_formula_witness :
    response_quality threeGoodResults =
      ((threeGoodResults.filter (fun r => !(strStartsWith "[" r.response &&
          containsSub "error" (pyLower r.response)))).length : ℚ) /
        (threeGoodResults.length : ℚ) * 10 :=
  (quality_formula threeGoodResults).1 (by decide)

/-!
## Claims about dispatch and adapters (C2, C8, C9)
-/

/-- `call_openai` names its provider in every branch. -/
theorem call_openai_model (p : String) (c : Option String) (k : Option String)
    (n : String → NetOutcome) : (call_openai p c k n).result.model = "OpenAI" := by
  unfold call_openai
  cases k with
  | none => rfl
  | some _ => cases n (fullPromptOf p c) <;> rfl

/-- `call_claude` names its provider in every branch. -/
theorem call_claude_model (p : String) (c : Option String) (k : Option String)
    (n : String → NetOutcome) : (call_claude p c k n).result.model = "Claude" := by
  unfold call_claude
  cases k with
  | none => rfl
  | some _ => cases n (fullPromptOf p c) <;> rfl

/-- `call_gemini` names its provider in every branch. -/
theorem call_gemini_model (p : String) (c : Option String) (k : Option String)
    (n : String → NetOutcome) : (call_gemini p c k n).result.model = "Gemini" := by
  unfold call_gemini
  cases k with
  | none => rfl
  | some _ => cases n (fullPromptOf p c) <;> rfl

/-- `call_cohere` names its provider in every branch. -/
theorem call_cohere_model (p : String) (c : Option String) (k : Option String)
    (n : String → NetOutcome) : (call_cohere p c k n).result.model = "Cohere" := by
  unfold call_cohere
  cases k with
  | none => rfl
  | some _ => cases n (fullPromptOf p c) <;> rfl

/-- `call_deepseek` names its provider in every branch. -/
theorem call_deepseek_model (p : String) (c : Option String) (k : Option String)
    (n : String → NetOutcome) : (call_deepseek p c k n).result.model = "DeepSeek" := by
  unfold call_deepseek
  cases k with
  | none => rfl
  | some _ => cases n (fullPromptOf p c) <;> rfl

/-- `call_openrouter` names its provider in every branch. -/
theorem call_openrouter_model (p : String) (c : Option String) (k : Option String)
    (n : String → NetOutcome) : (call_openrouter p c k n).result.model = "OpenRouter" := by
  unfold call_openrouter
  cases k with
  | none => rfl
  | some _ => cases n (fullPromptOf p c) <;> rfl

/-- `call_perplexity` names its provider in every branch. -/
theorem call_perplexity_model (p : String) (c : Option String) (k : Option String)
    (n : String → HttpOutcome) : (call_perplexity p c k n).result.model = "Perplexity" := by
  unfold call_perplexity
  cases k with
  | none => rfl
  | some _ =>
    cases n (fullPromptOf p c) with
    | resp status firstChoice =>
      dsimp only
      split
      · rfl
      · cases firstChoice <;> rfl
    | exn m => rfl

/-- `call_grok` names its provider in every branch. -/
theorem call_grok_model (p : String) (c : Option String) (k : Option String)
    (n : String → NetOutcome) : (call_grok p c k n).result.model = "Grok" := by
  unfold call_grok
  cases k with
  | none => rfl
  | some _ => cases n (fullPromptOf p c) <;> rfl

/-- C2: for every prompt, web context, credential assignment and network
outcome — in particular no matter how many provider calls fail —
`query_all_models` returns exactly one in-band result record per configured
provider: 8 results, labelled by the 8 provider names.  (Each adapter is a
total function into `ProviderResult`: every error path is a value, never an
exception.) -/
theorem dispatch_always_eight_results (prompt : String) (webContext : Option String)
    (env : Env) :
    (query_all_models prompt webContext env).length = 8 ∧
      (query_all_models prompt webContext env).map ProviderResult.model =
        ["OpenAI", "Claude", "Gemini", "Cohere", "DeepSeek", "OpenRouter",
         "Perplexity", "Grok"] := by
  refine ⟨rfl, ?_⟩
  unfold query_all_models
  simp [List.map, call_openai_model, call_claude_model, call_gemini_model,
    call_cohere_model, call_deepseek_model, call_openrouter_model,
    call_perplexity_model, call_grok_model]

/-- C8: when its credential is absent, each of the 8 adapters returns
immediately — performing zero network requests — with the in-band result
naming the unavailable provider and the missing API key; the final conjunct
checks that every such diagnostic text contains the provider name and the
phrase "missing API key". -/
theorem missing_credential_short_circuit (prompt : String) (webContext : Option String)
    (netS : String → NetOutcome) (netH : String → HttpOutcome) :
    call_openai prompt webContext none netS =
      ⟨⟨"OpenAI", "[OpenAI unavailable: missing API key]"⟩, 0⟩ ∧
    call_claude prompt webContext none netS =
      ⟨⟨"Claude", "[Claude unavailable: missing API key]"⟩, 0⟩ ∧
    call_gemini prompt webContext none netS =
      ⟨⟨"Gemini", "[Gemini unavailable: missing API key]"⟩, 0⟩ ∧
    call_cohere prompt webContext none netS =
      ⟨⟨"Cohere", "[Cohere unavailable: missing API key]"⟩, 0⟩ ∧
    call_deepseek prompt webContext none netS =
      ⟨⟨"DeepSeek", "[DeepSeek unavailable: missing API key]"⟩, 0⟩ ∧
    call_openrouter prompt webContext none netS =
      ⟨⟨"OpenRouter", "[OpenRouter unavailable: missing API key]"⟩, 0⟩ ∧
    call_perplexity prompt webContext none netH =
      ⟨⟨"Perplexity", "[Perplexity unavailable: missing API key]"⟩, 0⟩ ∧
    call_grok prompt webContext none netS =
      ⟨⟨"Grok", "[Grok unavailable: missing API key]"⟩, 0⟩ ∧
    ([("OpenAI", "[OpenAI unavailable: missing API key]"),
      ("Claude", "[Claude unavailable: missing API key]"),
      ("Gemini", "[Gemini unavailable: missing API key]"),
      ("Cohere", "[Cohere unavailable: missing API key]"),
      ("DeepSeek", "[DeepSeek unavailable: missing API key]"),
      ("OpenRouter", "[OpenRouter unavailable: missing API key]"),
      ("Perplexity", "[Perplexity unavailable: missing API key]"),
      ("Grok", "[Grok unavailable: missing API key]")].all
        (fun pr => containsSub pr.1 pr.2 && containsSub "missing API key" pr.2)) =
      true :=
  ⟨rfl, rfl, rfl, rfl, rfl, rfl, rfl, rfl, by decide⟩

/-- The result list produced when every credential is absent. -/
def allUnavailableResults : List ProviderResult :=
  [⟨"OpenAI", "[OpenAI unavailable: missing API key]"⟩,
   ⟨"Claude", "[Claude unavailable: missing API key]"⟩,
   ⟨"Gemini", "[Gemini unavailable: missing API key]"⟩,
   ⟨"Cohere", "[Cohere unavailable: missing API key]"⟩,
   ⟨"DeepSeek", "[DeepSeek unavailable: missing API key]"⟩,
   ⟨"OpenRouter", "[OpenRouter unavailable: missing API key]"⟩,
   ⟨"Perplexity", "[Perplexity unavailable: missing API key]"⟩,
   ⟨"Grok", "[Grok unavailable: missing API key]"⟩]

/-- C9: with every credential absent, `query_all_models` returns only
unavailability markers, each of which starts with "[" yet does not contain
"error" in its lowercased text, so the quality metric counts all of them as
successful and evaluates to 10.0 even though no real answer exists. -/
theorem unavailable_markers_count_as_successful (prompt : String)
    (webContext : Option String)
    (nO nC nG nCo nD nOr nGr : String → NetOutcome) (nP : String → HttpOutcome) :
    query_all_models prompt webContext
        ⟨none, none, none, none, none, none, none, none,
          nO, nC, nG, nCo, nD, nOr, nP, nGr⟩ = allUnavailableResults ∧
      (allUnavailableResults.all (fun r => strStartsWith "[" r.response &&
        !containsSub "error" (pyLower r.response) && isSuccessful r)) = true ∧
      response_quality allUnavailableResults = 10 := by
  refine ⟨rfl, by decide, ?_⟩
  rw [response_quality_eval allUnavailableResults 8 8 (by decide) (by decide) (by decide)]
  norm_num

/-!
## Claim about the team-analysis gate (C3)
-/

/-- C3: with the synthesis pass enabled, `run_team_analysis` executes the
purple-team review (returns a non-null `purple_team`) exactly when both the
red and blue findings are present — feature-enabled with a non-empty (truthy)
text; and whenever the defensive (blue) review is disabled, `purple_team` is
null regardless of everything else. -/
theorem purple_team_gate (redText blueText : String)
    (purpleOf : String → String → String) (enableRed enableBlue enablePurple : Bool) :
    (enablePurple = true →
      ((run_team_analysis redText blueText purpleOf enableRed enableBlue
          enablePurple).purple_team.isSome = true ↔
        (∃ s, (run_team_analysis redText blueText purpleOf enableRed enableBlue
            enablePurple).red_team = some s ∧ s ≠ "") ∧
        (∃ s, (run_team_analysis redText blueText purpleOf enableRed enableBlue
            enablePurple).blue_team = some s ∧ s ≠ ""))) ∧
    (enableBlue = false →
      (run_team_analysis redText blueText purpleOf enableRed enableBlue
        enablePurple).purple_team = none) := by
  constructor
  · intro hP
    subst hP
    unfold run_team_analysis pyTruthy
    cases enableRed <;> cases enableBlue <;>
      by_cases hr : redText = "" <;> by_cases hb : blueText = "" <;>
        simp [hr, hb]
  · intro hB
    subst hB
    unfold run_team_analysis pyTruthy
    simp

/-- C3 witness: disabling the defensive review forces a null synthesis even
with synthesis enabled and a non-empty red finding. -/
theorem purple_team_gate_witness :
    (run_team_analysis "red findings" "blue findings" (fun a b => a ++ b)
      true false true).purple_team = none :=
  (purple_team_gate "red findings" "blue findings" (fun a b => a ++ b)
    true false true).2 rfl

/-!
## Claim about keyword fallback priority (C10)
-/

/-- C10 counterexample: "low risk but very high" has no numeric score match
and contains "very high", yet `extract_score_from_analysis` returns 3.0 (the
earlier keyword "low" wins), not the claimed 8.0. -/
theorem very_high_preempted_by_low_example :
    noNumericMatch "low risk but very high" "Risk Score" = true ∧
    containsSub "very high" (pyLower "low risk but very high") = true ∧
    extract_score_from_analysis "low risk but very high" "Risk Score" = 3 ∧
    (3 : ℚ) ≠ 8 := by
  refine ⟨by decide, by decide, rfl, by norm_num⟩

/-- C10 amended: the fallback keywords are checked in the fixed order low,
minimal, high, very high, excellent, good, moderate, poor.  Hence, with no
numeric score match: a text containing "very high" — provided it contains
neither of the earlier keywords "low" and "minimal" — returns 8.0 (matched by
"high" first) and a text containing "very high" can never score 9.0; a text
containing "very low" always returns 3.0 (matched by "low" first, which
precedes every other keyword). -/
theorem keyword_priority_order (t lbl : String)
    (hnum : noNumericMatch t lbl = true) :
    (containsSub "very high" (pyLower t) = true →
        containsSub "low" (pyLower t) = false →
        containsSub "minimal" (pyLower t) = false →
        extract_score_from_analysis t lbl = 8) ∧
    (containsSub "very high" (pyLower t) = true →
        extract_score_from_analysis t lbl ≠ 9) ∧
    (containsSub "very low" (pyLower t) = true →
        extract_score_from_analysis t lbl = 3) := by
  unfold noNumericMatch at hnum
  simp only [Bool.and_eq_true, Option.isNone_iff_eq_none] at hnum
  obtain ⟨⟨⟨h1, h2⟩, h3⟩, h4⟩ := hnum
  have hkw : t ≠ "" → extract_score_from_analysis t lbl = keywordFallback t := by
    intro hne
    unfold extract_score_from_analysis
    rw [if_neg hne, h1, h2, h3, h4]
  have hne_of_vh : containsSub "very high" (pyLower t) = true → t ≠ "" := by
    intro hvh heq
    subst heq
    exact absurd hvh (by decide)
  have hne_of_vl : containsSub "very low" (pyLower t) = true → t ≠ "" := by
    intro hvl heq
    subst heq
    exact absurd hvl (by decide)
  refine ⟨?_, ?_, ?_⟩
  · intro hvh hlow hmin
    have hhigh : containsSub "high" (pyLower t) = true :=
      containsSub_trans (by decide) hvh
    rw [hkw (hne_of_vh hvh)]
    simp [keywordFallback, hlow, hmin, hhigh]
  · intro hvh
    have hhigh : containsSub "high" (pyLower t) = true :=
      containsSub_trans (by decide) hvh
    rw [hkw (hne_of_vh hvh)]
    by_cases hlow : containsSub "low" (pyLower t) = true
    · simp [keywordFallback, hlow]
    · by_cases hmin : containsSub "minimal" (pyLower t) = true
      · simp [keywordFallback, hlow, hmin]
      · simp [keywordFallback, hlow, hmin, hhigh]
  · intro hvl
    have hlow : containsSub "low" (pyLower t) = true :=
      containsSub_trans (by decide) hvl
    rw [hkw (hne_of_vl hvl)]
    simp [keywordFallback, hlow]

/-- C10 witness: the amended priority rule evaluated at the text
"very high" itself. -/
theorem keyword_priority_order_witness :
    extract_score_from_analysis "very high" "Risk Score" = 8 :=
  (keyword_priority_order "very high" "Risk Score" (by decide)).1
    (by decide) (by decide) (by decide)

/-!
## Claim about the temporal-accuracy check (C6)
-/

/-- A boolean filter is non-empty exactly when some element satisfies it. -/
theorem filter_nonempty_eq_any (p : ℤ → Bool) (l : List ℤ) :
    (!(l.filter p).isEmpty) = l.any p := by
  induction l with
  | nil => rfl
  | cons a tl ih =>
    by_cases h : p a = true
    · simp [List.filter_cons, h]
    · simp only [Bool.not_eq_true] at h
      simp [List.filter_cons, h, ih]

/-- The score `_check_temporal_accuracy` assigns to one year list. -/
def temporalScoreOfYears (currentYear : ℤ) (ys : List ℤ) : ℚ :=
  if ys.any (fun y => currentYear - 2 ≤ y) then 9/10
  else if ys.any (fun y => currentYear - 5 ≤ y) then 7/10
  else 2/5

/-- The score of the last response that mentions any year, with default 0.7. -/
def lastTemporalScore (currentYear : ℤ) (aiResponses : List (String × String)) : ℚ :=
  (aiResponses.filterMap (fun mr =>
    if (yearsMentioned mr.2).isEmpty then none
    else some (temporalScoreOfYears currentYear (yearsMentioned mr.2)))).getLastD (7/10)

/-- One loop iteration equals the per-year-list score when years are present. -/
theorem temporalStep_eq (cy : ℤ) (acc : ℚ) (mr : String × String)
    (h : (yearsMentioned mr.2).isEmpty = false) :
    temporalStep cy acc mr = temporalScoreOfYears cy (yearsMentioned mr.2) := by
  unfold temporalStep temporalScoreOfYears
  dsimp only
  rw [h]
  simp only [Bool.not_false, if_true]
  rw [filter_nonempty_eq_any]

/-- The temporal fold keeps only the last yearful response's score. -/
theorem temporal_foldl_eq (cy : ℤ) (rs : List (String × String)) :
    ∀ acc : ℚ,
      rs.foldl (temporalStep cy) acc =
        (rs.filterMap (fun mr =>
          if (yearsMentioned mr.2).isEmpty then none
          else some (temporalScoreOfYears cy (yearsMentioned mr.2)))).getLastD acc := by
  induction rs with
  | nil => intro acc; rfl
  | cons mr tl ih =>
    intro acc
    by_cases h : (yearsMentioned mr.2).isEmpty = true
    · have hstep : temporalStep cy acc mr = acc := by
        unfold temporalStep
        dsimp only
        rw [h]
        rfl
      simp only [List.foldl_cons, List.filterMap_cons, h]
      rw [hstep]
      exact ih acc
    · simp only [Bool.not_eq_true] at h
      rw [List.foldl_cons, temporalStep_eq cy acc mr h]
      simp only [List.filterMap_cons, h, Bool.false_eq_true, if_false,
        List.getLastD_cons]
      exact ih _

/-- C6 counterexample: the first response mentions 2025, which is within 2 of
the current year 2025, yet the check returns 0.4 because the last
year-mentioning response ("2010") overwrites the running score — the claimed
"0.9 if any year anywhere is within 2" fails. -/
theorem temporal_last_response_wins_example :
    (2025 : ℤ) ∈ yearsMentioned "Released in 2025." ∧
    checkTemporalAccuracy 2025
      [("A", "Released in 2025."), ("B", "Published in 2010.")] = 2/5 ∧
    ((2 : ℚ)/5) ≠ 9/10 := by
  refine ⟨by decide, rfl, by norm_num⟩

/-- C6 amended: the temporal check scans responses in order and its result is
decided by the LAST response that mentions any year 2000-2099: 0.9 if that
response mentions a year ≥ current−2 (future years included), else 0.7 if it
mentions a year ≥ current−5, else 0.4; the default 0.7 applies when no
response mentions a year.  In particular, with current year 2025 and a single
response mentioning only "2019", the score is 0.4. -/
theorem temporal_accuracy_last_wins (currentYear : ℤ)
    (aiResponses : List (String × String)) :
    checkTemporalAccuracy currentYear aiResponses =
        lastTemporalScore currentYear aiResponses ∧
      checkTemporalAccuracy 2025 [("A", "The answer dates to 2019.")] = 2/5 := by
  constructor
  · unfold checkTemporalAccuracy lastTemporalScore
    exact temporal_foldl_eq currentYear aiResponses (7/10)
  · rfl

/-!
## Claim about the overall truth score (C7)
-/

/-- Counter discipline of `_verify_sources`: verified and reliable counts
never exceed the found count. -/
def statsConsistent (st : SourceStats) : Prop :=
  st.urlsVerified ≤ st.urlsFound ∧ st.reliableSources ≤ st.urlsFound

/-- One URL step preserves the counter discipline. -/
theorem verifyOneUrl_consistent (check : String → UrlCheck) (st : SourceStats)
    (url : String) (h : statsConsistent st) :
    statsConsistent (verifyOneUrl check st url) := by
  obtain ⟨hv, hr⟩ := h
  unfold verifyOneUrl statsConsistent
  dsimp only
  cases check (normalizeUrl url) with
  | ok reliable => cases reliable <;> simp <;> omega
  | badStatus => dsimp only; omega
  | exn => dsimp only; omega

/-- The inner URL fold preserves the counter discipline. -/
theorem foldl_urls_consistent (check : String → UrlCheck) (urls : List String) :
    ∀ st : SourceStats, statsConsistent st →
      statsConsistent (urls.foldl (verifyOneUrl check) st) := by
  induction urls with
  | nil => intro st h; exact h
  | cons u tl ih =>
    intro st h
    rw [List.foldl_cons]
    exact ih _ (verifyOneUrl_consistent check st u h)

/-- `_verify_sources` always produces consistent counters. -/
theorem verifySources_consistent (urlsOf : String → List String)
    (check : String → UrlCheck) (aiResponses : List (String × String)) :
    statsConsistent (verifySources urlsOf check aiResponses) := by
  unfold verifySources
  have hgen : ∀ (rs : List (String × String)) (st : SourceStats),
      statsConsistent st →
        statsConsistent (rs.foldl
          (fun stats mr => ((urlsOf mr.2).take 3).foldl (verifyOneUrl check) stats) st) := by
    intro rs
    induction rs with
    | nil => intro st h; exact h
    | cons mr tl ih =>
      intro st h
      rw [List.foldl_cons]
      exact ih _ (foldl_urls_consistent check _ st h)
  exact hgen aiResponses ⟨0, 0, 0, 0⟩ ⟨Nat.le_refl 0, Nat.le_refl 0⟩

/-- The cross-reference sub-score always lies in [0, 1]. -/
theorem crossRef_mem (hasCreds : Bool) (o : SearchOutcome) :
    0 ≤ crossReferenceInformation hasCreds o ∧
      crossReferenceInformation hasCreds o ≤ 1 := by
  unfold crossReferenceInformation
  cases hasCreds with
  | false => norm_num
  | true =>
    rw [if_neg (by decide)]
    cases o with
    | httpResp status items =>
      dsimp only
      split
      · constructor
        · exact le_min (by positivity) (by norm_num)
        · exact min_le_right _ _
      · norm_num
    | exn => norm_num

/-- One temporal-loop step stays in [0, 1] when the accumulator does. -/
theorem temporalStep_mem (cy : ℤ) (acc : ℚ) (mr : String × String)
    (h0 : 0 ≤ acc) (h1 : acc ≤ 1) :
    0 ≤ temporalStep cy acc mr ∧ temporalStep cy acc mr ≤ 1 := by
  unfold temporalStep
  dsimp only
  split_ifs <;> constructor <;> first | assumption | norm_num

/-- The temporal sub-score always lies in [0, 1]. -/
theorem checkTemporal_mem (cy : ℤ) (rs : List (String × String)) :
    0 ≤ checkTemporalAccuracy cy rs ∧ checkTemporalAccuracy cy rs ≤ 1 := by
  unfold checkTemporalAccuracy
  have hgen : ∀ (l : List (String × String)) (acc : ℚ), 0 ≤ acc → acc ≤ 1 →
      0 ≤ l.foldl (temporalStep cy) acc ∧ l.foldl (temporalStep cy) acc ≤ 1 := by
    intro l
    induction l with
    | nil => intro acc h0 h1; exact ⟨h0, h1⟩
    | cons mr tl ih =>
      intro acc h0 h1
      rw [List.foldl_cons]
      obtain ⟨s0, s1⟩ := temporalStep_mem cy acc mr h0 h1
      exact ih _ s0 s1
  exact hgen rs (7/10) (by norm_num) (by norm_num)

/-- `_calculate_truth_score` stays in [0, 1] whenever its inputs are in range
and the source counters are consistent. -/
theorem calculateTruthScore_mem (c t : ℚ) (st : SourceStats)
    (hc0 : 0 ≤ c) (hc1 : c ≤ 1) (ht0 : 0 ≤ t) (ht1 : t ≤ 1)
    (hst : statsConsistent st) :
    0 ≤ calculateTruthScore c t st ∧ calculateTruthScore c t st ≤ 1 := by
  obtain ⟨hv, hr⟩ := hst
  unfold calculateTruthScore
  dsimp only
  have hS : 0 ≤ (if st.urlsFound > 0 then
      ((st.urlsVerified : ℚ) / (st.urlsFound : ℚ)) * (6/10) +
        ((st.reliableSources : ℚ) / (st.urlsFound : ℚ)) * (4/10)
    else (7/10 : ℚ)) ∧ (if st.urlsFound > 0 then
      ((st.urlsVerified : ℚ) / (st.urlsFound : ℚ)) * (6/10) +
        ((st.reliableSources : ℚ) / (st.urlsFound : ℚ)) * (4/10)
    else (7/10 : ℚ)) ≤ 1 := by
    split
    · rename_i hf
      have hfq : (0:ℚ) < (st.urlsFound : ℚ) := by exact_mod_cast hf
      have hv1 : (st.urlsVerified : ℚ) / (st.urlsFound : ℚ) ≤ 1 := by
        rw [div_le_one hfq]; exact_mod_cast hv
      have hr1 : (st.reliableSources : ℚ) / (st.urlsFound : ℚ) ≤ 1 := by
        rw [div_le_one hfq]; exact_mod_cast hr
      have hv0 : (0:ℚ) ≤ (st.urlsVerified : ℚ) / (st.urlsFound : ℚ) := by positivity
      have hr0 : (0:ℚ) ≤ (st.reliableSources : ℚ) / (st.urlsFound : ℚ) := by positivity
      constructor <;> nlinarith
    · norm_num
  obtain ⟨hS0, hS1⟩ := hS
  constructor
  · have hlow : ((0 : ℤ) : ℚ) / 10 ^ 2 ≤
        c * (4/10) + t * (3/10) + (if st.urlsFound > 0 then
          ((st.urlsVerified : ℚ) / (st.urlsFound : ℚ)) * (6/10) +
            ((st.reliableSources : ℚ) / (st.urlsFound : ℚ)) * (4/10)
        else (7/10 : ℚ)) * (2/10) + (7/10) * (1/10) := by
      push_cast
      nlinarith
    have := le_pythonRound hlow
    calc (0:ℚ) = ((0 : ℤ) : ℚ) / 10 ^ 2 := by norm_num
    _ ≤ _ := this
  · have hhi : c * (4/10) + t * (3/10) + (if st.urlsFound > 0 then
          ((st.urlsVerified : ℚ) / (st.urlsFound : ℚ)) * (6/10) +
            ((st.reliableSources : ℚ) / (st.urlsFound : ℚ)) * (4/10)
        else (7/10 : ℚ)) * (2/10) + (7/10) * (1/10) ≤ ((100 : ℤ) : ℚ) / 10 ^ 2 := by
      push_cast
      nlinarith
    have := pythonRound_le hhi
    calc pythonRound _ 2 ≤ ((100 : ℤ) : ℚ) / 10 ^ 2 := this
    _ = 1 := by norm_num

/-- C7: for every credential state, search outcome, URL extraction, link-check
outcome, clock year and response list, the overall truth score produced by the
verification engine lies within [0, 1]: the weighted combination
0.4·crossRef + 0.3·temporal + 0.2·sourceScore + 0.1·0.7 stays in range
because each sub-score lies in [0, 1]. -/
theorem overall_truth_score_range (hasCreds : Bool) (so : SearchOutcome)
    (urlsOf : String → List String) (check : String → UrlCheck)
    (currentYear : ℤ) (aiResponses : List (String × String)) :
    0 ≤ overallTruthScore hasCreds so urlsOf check currentYear aiResponses ∧
      overallTruthScore hasCreds so urlsOf check currentYear aiResponses ≤ 1 := by
  obtain ⟨hc0, hc1⟩ := crossRef_mem hasCreds so
  obtain ⟨ht0, ht1⟩ := checkTemporal_mem currentYear aiResponses
  exact calculateTruthScore_mem _ _ _ hc0 hc1 ht0 ht1
    (verifySources_consistent urlsOf check aiResponses)
